import Mathlib

/-!
# Verification of the Frogger state-transition core (src/main.ts)

A shallow embedding of the pure game core of `src/main.ts`: the entity
factories, the torus-wrap motion step, the collision predicates, the
progress tracker and the top-level reducer `reduceState`/`tick`.

JavaScript numbers are modelled by `ℚ` (all arithmetic the program performs
stays on small dyadic rationals, where IEEE doubles are exact).  Scores,
high scores and levels only ever hold non-negative integers and are
modelled by `ℕ`.  Entity ids are kept as `String`, because the source
parses characters out of them (`id[3]`, `id[6]`).
-/

namespace Frogger

/-! ## Game constants (the `CONSTANTS` object of `src/main.ts`) -/

def CANVAS_SIZE : ℚ := 600

def FROG_START_X : ℚ := 279

def FROG_START_Y : ℚ := 523

def FROG_STEP_X : ℚ := 43

def FROG_STEP_Y : ℚ := 59

def FROG_WIDTH : ℚ := 40

def FROG_HEIGHT : ℚ := 42

def CAR_COUNT : ℕ := 3

def CAR_WIDTH : ℚ := 40

def CAR_HEIGHT : ℚ := 42

def CAR1_SPEED : ℚ := -10

def CAR2_SPEED : ℚ := 20

def CAR3_SPEED : ℚ := -15

def LOG_COUNT : ℕ := 3

def LOG_WIDTH : ℚ := 140

def LOG_HEIGHT : ℚ := 42

def LOG1_SPEED : ℚ := 10

def LOG2_SPEED : ℚ := 15

def TURTLE_WIDTH : ℚ := 180

def TURTLE_HEIGHT : ℚ := 42

def TURTLE_SPEED : ℚ := -5

def TURTLE_COUNT : ℕ := 3

def TARGET_POINTS : ℕ := 100

def TARGET_COUNT : ℕ := 5

def ROW_1 : ℚ := 464

def ROW_2 : ℚ := 405

def ROW_3 : ℚ := 346

def ROW_4 : ℚ := 228

def ROW_5 : ℚ := 169

def ROW_6 : ℚ := 110

def ROW_7 : ℚ := 51

def OBJECT_WIDTH : ℚ := 200

def BUSH_WIDTH : ℚ := 129

def SPEED_INCREASE : ℚ := 1/2

/-! ## Data model (`Frog`, `Body`, `State` of `src/main.ts`) -/

/-- The player record (`type Frog` in the source). -/
structure Frog where
  id : String
  x : ℚ
  y : ℚ
  img : String
  width : ℚ
  height : ℚ
deriving DecidableEq, Repr

/-- A moving body (`type Body` in the source): cars, logs, turtle groups and
target-slot markers.  `leftDirection` is true when the body moves from left
to right. -/
structure Body where
  id : String
  x : ℚ
  y : ℚ
  img : String
  width : ℚ
  height : ℚ
  leftDirection : Bool
deriving DecidableEq, Repr

/-- The immutable world snapshot (`type State` in the source). -/
structure State where
  frog : Frog
  cars : List Body
  logs : List Body
  turtles : List Body
  filledSpaces : List Body
  filledSpacesIndex : List ℤ
  score : ℕ
  highscore : ℕ
  level : ℕ
  gameOver : Bool
deriving DecidableEq, Repr

/-- The events the reducer consumes (`Tick`, `Move`, `Restart` classes). -/
inductive Event where
  | Move (x y : ℚ)
  | Tick (num : ℕ)
  | Restart (val : Bool)
deriving DecidableEq, Repr

/-- JS `s[i]`: character access into an id string.  All ids parsed by the
program are factory-built and long enough, so the fallback ' ' (JS would
yield `undefined` there) is never consulted on factory-built states. -/
def charAt (s : String) (i : ℕ) : Char := s.data.getD i ' '

/-- JS `Number(c)` for a one-character digit string: `'0'.toNat = 48`.  On a
non-digit character JS would produce `NaN` (a malformed id is a programming
error per the defensive contract); this total model returns some other
integer there instead. -/
def charNum (c : Char) : ℤ := (c.toNat : ℤ) - 48

/-- Fallback body for total modelling of JS partial array indexing
(`logs[3]`, `reduce` on an empty array would throw in JS). -/
def defaultBody : Body :=
  { id := "", x := 0, y := 0, img := "", width := 0, height := 0,
    leftDirection := false }

/-! ## Entity factory -/

/-- `createFrog` of the source. -/
def createFrog (id : String) (img : String) (pos : ℚ × ℚ) (dims : ℚ × ℚ) : Frog :=
  { id := id, x := pos.1, y := pos.2, img := img, width := dims.1, height := dims.2 }

/-- `createCarRow` of the source: builds `col` cars for row `row`,
recursing downward on the column counter. -/
def createCarRow (row : ℕ) : ℕ → List Body → List Body
  | 0, cars => cars
  | Nat.succ n, cars =>
      let col := Nat.succ n
      let newCar : Body :=
        { id := "CAR" ++ toString row ++ "-" ++ toString col
          leftDirection := decide (row % 2 = 0)
          x := (col : ℚ) * OBJECT_WIDTH
          y := if row = 3 then ROW_3 else if row = 2 then ROW_2 else ROW_1
          img := if row = 3 then "../frogger/assets/car3.png"
                 else if row = 2 then "../frogger/assets/car2.png"
                 else "../frogger/assets/car1.png"
          width := CAR_WIDTH
          height := CAR_HEIGHT }
      createCarRow row n (cars ++ [newCar])

/-- `createLogRow` of the source. -/
def createLogRow (row : ℕ) : ℕ → List Body → List Body
  | 0, logs => logs
  | Nat.succ n, logs =>
      let col := Nat.succ n
      let newLog : Body :=
        { id := "LOG" ++ toString row ++ "-" ++ toString col
          leftDirection := false
          x := (col : ℚ) * OBJECT_WIDTH
          y := if row = 2 then ROW_6 else ROW_4
          img := "../frogger/assets/log.png"
          width := LOG_WIDTH
          height := LOG_HEIGHT }
      createLogRow row n (logs ++ [newLog])

/-- `createTurtleRow` of the source. -/
def createTurtleRow : ℕ → List Body → List Body
  | 0, turtles => turtles
  | Nat.succ n, turtles =>
      let col := Nat.succ n
      let newTurtle : Body :=
        { id := "TURTLE-" ++ toString col
          leftDirection := true
          x := (col : ℚ) * OBJECT_WIDTH
          y := ROW_5
          img := "../frogger/assets/turtles.png"
          width := TURTLE_WIDTH
          height := TURTLE_HEIGHT }
      createTurtleRow n (turtles ++ [newTurtle])

/-- `createFilledSpaces` of the source: the five target-slot markers. -/
def createFilledSpaces : ℕ → List Body → List Body
  | 0, filledSpace => filledSpace
  | Nat.succ n, filledSpace =>
      let col := Nat.succ n
      let newFilledSpace : Body :=
        { id := "FILLED" ++ toString col
          leftDirection := false
          x := (FROG_START_X - 6 * FROG_STEP_X) + (col : ℚ) * BUSH_WIDTH - BUSH_WIDTH
          y := ROW_7
          img := "../frogger/assets/frog.png"
          width := FROG_WIDTH
          height := FROG_HEIGHT }
      createFilledSpaces n (filledSpace ++ [newFilledSpace])

/-! ## Motion engine -/

/-- `wrap` of the source: torus wrap on the x-axis.  `left = true` means the
body travels from left to right. -/
def wrap (objectState : Body) (left : Bool) (speed : ℚ) : Body :=
  let newX := objectState.x + speed
  if left then
    { objectState with
      x := if CANVAS_SIZE ≤ newX then -objectState.width / 2 else newX }
  else
    { objectState with
      x := if newX ≤ -objectState.width then CANVAS_SIZE - objectState.width / 2
           else newX }

/-! ## Collision detector -/

/-- `onWaterObj` of the source: the frog stands on the leading 3-step band
of a water object in the same row. -/
def onWaterObj (frog : Frog) (object : Body) : Bool :=
  (decide (object.x ≤ frog.x) && decide (frog.x < object.x + 3 * FROG_STEP_X))
    && decide (frog.y = object.y)

/-- `frogOnLog` of the source. -/
def frogOnLog (state : State) : Bool :=
  decide (0 < (state.logs.filter (fun log => onWaterObj state.frog log)).length)

/-- `frogOnTurtle` of the source. -/
def frogOnTurtle (state : State) : Bool :=
  decide (0 < (state.turtles.filter (fun turtle => onWaterObj state.frog turtle)).length)

/-- `getXCoord` of the source. -/
def getXCoord (num : ℚ) : ℚ := FROG_START_X + num * FROG_STEP_X

/-- `onBushes` of the source: the frog overlaps one of the four bush
intervals of the goal row (each padded by a quarter frog width). -/
def onBushes (frog : Frog) : Bool :=
  (((decide (frog.x + frog.width ≤ getXCoord (-3) + frog.width / 4)
      && decide (getXCoord (-5) - frog.width / 4 ≤ frog.x))
    || (decide (frog.x + frog.width ≤ FROG_START_X + frog.width / 4)
      && decide (getXCoord (-2) - frog.width / 4 ≤ frog.x))
    || (decide (frog.x + frog.width ≤ getXCoord 3 + frog.width / 4)
      && decide (getXCoord 1 - frog.width / 4 ≤ frog.x))
    || (decide (frog.x + frog.width ≤ getXCoord 6 + frog.width / 4)
      && decide (getXCoord 4 - frog.width / 4 ≤ frog.x))))
    && decide (frog.y = ROW_7)

/-- `obstacleCollision` of the source (local to `handleCollisions`): the
obstacle's left edge lies strictly inside the frog's span, or the
obstacle's right edge does, and both are on the same row. -/
def obstacleCollision (frog : Frog) (obstacle : Body) : Bool :=
  ((decide (obstacle.x < frog.x + frog.width) && decide (frog.x < obstacle.x))
    || (decide (frog.x < obstacle.x + obstacle.width)
      && decide (obstacle.x + obstacle.width < frog.x + frog.width)))
    && decide (frog.y = obstacle.y)

/-- `onWater` of the source (local to `handleCollisions`). -/
def onWater (frog : Frog) : Bool :=
  decide (ROW_6 ≤ frog.y) && decide (frog.y ≤ ROW_4)

/-- `unsafeBoundary` of the source (local to `handleCollisions`). -/
def unsafeBoundary (frog : Frog) : Bool :=
  decide (CANVAS_SIZE ≤ frog.x + frog.width / 2)
    || decide (frog.x + frog.width / 2 ≤ 0)

/-- `handleCollisions` of the source: recomputes only the game-over flag. -/
def handleCollisions (state : State) : State :=
  let frogCollided :=
    decide (0 < (state.cars.filter (fun car => obstacleCollision state.frog car)).length)
  let frogOnObj := frogOnLog state || frogOnTurtle state
  { state with
    gameOver := frogCollided || (onWater state.frog && !frogOnObj)
      || (frogOnObj && unsafeBoundary state.frog) || onBushes state.frog }

/-! ## Initial state and boundaries -/

/-- `initialState` of the source. -/
def initialState : State :=
  { frog := createFrog "FROG" "../frogger/assets/frog.png"
      (FROG_START_X, FROG_START_Y) (FROG_WIDTH, FROG_HEIGHT)
    cars := createCarRow 1 CAR_COUNT [] ++ createCarRow 2 CAR_COUNT []
      ++ createCarRow 3 CAR_COUNT []
    logs := createLogRow 1 LOG_COUNT [] ++ createLogRow 2 LOG_COUNT []
    turtles := createTurtleRow TURTLE_COUNT []
    filledSpaces := createFilledSpaces TARGET_COUNT []
    filledSpacesIndex := []
    score := 0
    highscore := 0
    level := 0
    gameOver := false }

/-- `outLeftBound` of the source. -/
def outLeftBound (xPos : ℚ) : Bool := decide (xPos < getXCoord (-6))

/-- `outRightBound` of the source. -/
def outRightBound (xPos : ℚ) : Bool := decide (getXCoord 7 ≤ xPos)

/-- `outUpBound` of the source. -/
def outUpBound (yPos : ℚ) : Bool := decide (yPos < ROW_7)

/-- `outDownBound` of the source. -/
def outDownBound (yPos : ℚ) : Bool :=
  decide (FROG_START_Y + FROG_STEP_Y ≤ yPos)

/-- `illegalMove` of the source. -/
def illegalMove (xPos yPos : ℚ) : Bool :=
  outLeftBound xPos || outRightBound xPos || outUpBound yPos || outDownBound yPos

/-! ## Progress tracker -/

/-- `inTarget` of the source: the frog is on the goal row and not in a bush. -/
def inTarget (state : State) : Bool :=
  decide (state.frog.y = ROW_7) && !onBushes state.frog

/-- `nearestObject` of the source: `filledSpaces.reduce` keeping the marker
whose x is strictly closer to the frog (first minimal element wins).  JS
`reduce` throws on an empty array; factory-built states always carry five
markers, so the `[]` case is unreachable and returns `defaultBody`. -/
def nearestObject (state : State) : Body :=
  match state.filledSpaces with
  | [] => defaultBody
  | b :: rest =>
      rest.foldl
        (fun acc object =>
          if |object.x - state.frog.x| < |acc.x - state.frog.x| then object else acc)
        b

/-- `Number(nearestObject(state).id[6]) - 1`, the slot index computed (with
the same expression) inside both `updateFilledInd` and `checkFilled`. -/
def slotIdx (state : State) : ℤ :=
  charNum (charAt (nearestObject state).id 6) - 1

/-- `updateFilledInd` of the source: append the nearest slot's index when
the frog is in the target row and the index is not yet present. -/
def updateFilledInd (state : State) : List ℤ :=
  if inTarget state then
    let targetIndex := slotIdx state
    state.filledSpacesIndex
      ++ (if targetIndex ∈ state.filledSpacesIndex then [] else [targetIndex])
  else
    state.filledSpacesIndex

/-- `checkFilled` of the source. -/
def checkFilled (state : State) : Bool :=
  let targetIndex := slotIdx state
  decide (targetIndex ∈ state.filledSpacesIndex)

/-- `updateScore` of the source: 100 points for a fresh target slot. -/
def updateScore (state : State) : ℕ :=
  if inTarget state && !checkFilled state then state.score + 100
  else state.score

/-! ## The tick transition -/

/-- The per-tick motion step of one car (the `cars.map` body in `tick`). -/
def moveCar (speedMultiplier : ℚ) (carState : Body) : Body :=
  if carState.leftDirection then
    wrap carState true (CAR2_SPEED + speedMultiplier)
  else if charAt carState.id 3 = '3' then
    wrap carState false (CAR3_SPEED - speedMultiplier)
  else
    wrap carState false (CAR1_SPEED - speedMultiplier)

/-- The per-tick motion step of one log (the `logs.map` body in `tick`). -/
def moveLog (speedMultiplier : ℚ) (logState : Body) : Body :=
  if charAt logState.id 3 = '2' then
    wrap logState true (LOG2_SPEED + speedMultiplier)
  else
    wrap logState true (LOG1_SPEED + speedMultiplier)

/-- The per-tick motion step of one turtle group (the `turtles.map` body in
`tick`). -/
def moveTurtle (speedMultiplier : ℚ) (turtleState : Body) : Body :=
  wrap turtleState false (TURTLE_SPEED - speedMultiplier)

/-- The per-tick frog update of `tick`: snap back on target entry, otherwise
carried by the platform of its row (first matching row wins), otherwise
unchanged.  `logs[0]`, `logs[3]`, `turtles[0]` are JS indexings, total here
via `defaultBody`. -/
def moveFrog (speedMultiplier : ℚ) (currentState : State) : Frog :=
  if inTarget currentState then initialState.frog
  else if frogOnLog currentState
      && decide (currentState.frog.y = (currentState.logs.getD 0 defaultBody).y) then
    { currentState.frog with
      x := currentState.frog.x + (LOG1_SPEED + speedMultiplier) }
  else if frogOnLog currentState
      && decide (currentState.frog.y = (currentState.logs.getD 3 defaultBody).y) then
    { currentState.frog with
      x := currentState.frog.x + (LOG2_SPEED + speedMultiplier) }
  else if frogOnTurtle currentState
      && decide (currentState.frog.y = (currentState.turtles.getD 0 defaultBody).y) then
    { currentState.frog with
      x := currentState.frog.x + (TURTLE_SPEED - speedMultiplier) }
  else
    currentState.frog

/-- `speedMultiplier` of `tick`: `currentState.level * SPEED_INCREASE`. -/
def speedMult (currentState : State) : ℚ :=
  (currentState.level : ℚ) * SPEED_INCREASE

/-- `tick` of the source: reset on a game-over frame; otherwise advance all
bodies, update score/high-score/frog/filled set and re-evaluate collisions;
on a full filled set, additionally increment the level and clear the set. -/
def tick (currentState : State) : State :=
  if currentState.gameOver then
    { currentState with
      frog := createFrog "FROG" "../frogger/assets/frog.png"
        (FROG_START_X, FROG_START_Y) (FROG_WIDTH, FROG_HEIGHT)
      cars := createCarRow 1 CAR_COUNT [] ++ createCarRow 2 CAR_COUNT []
        ++ createCarRow 3 CAR_COUNT []
      logs := createLogRow 1 LOG_COUNT [] ++ createLogRow 2 LOG_COUNT []
      turtles := createTurtleRow TURTLE_COUNT []
      filledSpaces := createFilledSpaces TARGET_COUNT []
      filledSpacesIndex := []
      score := 0
      level := 0
      gameOver := false }
  else if currentState.filledSpacesIndex.length < 5 then
    handleCollisions
      { currentState with
        cars := currentState.cars.map (moveCar (speedMult currentState))
        logs := currentState.logs.map (moveLog (speedMult currentState))
        turtles := currentState.turtles.map (moveTurtle (speedMult currentState))
        score := updateScore currentState
        highscore := if currentState.highscore ≤ currentState.score
          then currentState.score else currentState.highscore
        frog := moveFrog (speedMult currentState) currentState
        filledSpacesIndex := updateFilledInd currentState }
  else
    handleCollisions
      { currentState with
        level := currentState.level + 1
        cars := currentState.cars.map (moveCar (speedMult currentState))
        logs := currentState.logs.map (moveLog (speedMult currentState))
        turtles := currentState.turtles.map (moveTurtle (speedMult currentState))
        score := updateScore currentState
        highscore := if currentState.highscore ≤ currentState.score
          then currentState.score else currentState.highscore
        frog := moveFrog (speedMult currentState) currentState
        filledSpacesIndex := [] }

/-! ## The top-level reducer -/

/-- `reduceState` of the source. -/
def reduceState (currentState : State) (event : Event) : State :=
  match event with
  | Event.Move ex ey =>
      let newX := currentState.frog.x + ex
      let newY := currentState.frog.y + ey
      { currentState with
        frog :=
          { currentState.frog with
            x := if illegalMove newX FROG_START_Y then currentState.frog.x
                 else currentState.frog.x + ex
            y := if illegalMove FROG_START_X newY then currentState.frog.y
                 else currentState.frog.y + ey } }
  | Event.Restart _ =>
      { currentState with
        frog := createFrog "FROG" "../frogger/assets/frog.png"
          (FROG_START_X, FROG_START_Y) (FROG_WIDTH, FROG_HEIGHT)
        cars := createCarRow 1 CAR_COUNT [] ++ createCarRow 2 CAR_COUNT []
          ++ createCarRow 3 CAR_COUNT []
        logs := createLogRow 1 LOG_COUNT [] ++ createLogRow 2 LOG_COUNT []
        turtles := createTurtleRow TURTLE_COUNT []
        filledSpaces := createFilledSpaces TARGET_COUNT []
        filledSpacesIndex := []
        score := 0
        level := 0
        gameOver := false }
  | Event.Tick _ => tick currentState

/-- A body is entirely outside the canvas: its right edge is at or left of
the left canvas edge, or its left edge is at or right of the right canvas
edge. -/
def fullyOutside (b : Body) : Prop :=
  b.x + b.width ≤ 0 ∨ CANVAS_SIZE ≤ b.x

instance (b : Body) : Decidable (fullyOutside b) := by
  unfold fullyOutside; infer_instance

/-! ## Helper lemmas -/

lemma handleCollisions_frog (t : State) : (handleCollisions t).frog = t.frog := rfl

lemma handleCollisions_cars (t : State) : (handleCollisions t).cars = t.cars := rfl

lemma handleCollisions_logs (t : State) : (handleCollisions t).logs = t.logs := rfl

lemma handleCollisions_turtles (t : State) :
    (handleCollisions t).turtles = t.turtles := rfl

lemma handleCollisions_filledSpaces (t : State) :
    (handleCollisions t).filledSpaces = t.filledSpaces := rfl

lemma handleCollisions_filledSpacesIndex (t : State) :
    (handleCollisions t).filledSpacesIndex = t.filledSpacesIndex := rfl

lemma handleCollisions_score (t : State) : (handleCollisions t).score = t.score := rfl

lemma handleCollisions_highscore (t : State) :
    (handleCollisions t).highscore = t.highscore := rfl

lemma handleCollisions_level (t : State) : (handleCollisions t).level = t.level := rfl

/-! ## C1: a tick on a game-over snapshot performs a full reset except the
high score -/

/-- C1: for every snapshot whose game-over flag is set, a Tick returns a
snapshot identical to the initial snapshot (initial player, freshly built
obstacle/platform/slot collections, empty filled-index set, score 0,
level 0, game-over false) except that the highscore field is preserved from
the pre-tick snapshot. -/
theorem claim_C1_tick_on_gameOver_resets (s : State) (h : s.gameOver = true) :
    tick s = { initialState with highscore := s.highscore } := by
  unfold tick
  rw [if_pos h]
  rfl

/-- Witness for C1 at a concrete game-over snapshot with highscore 7. -/
theorem claim_C1_witness :
    ({ initialState with gameOver := true, highscore := 7 } : State).gameOver = true
      ∧ tick { initialState with gameOver := true, highscore := 7 }
        = { initialState with highscore := 7 } :=
  ⟨rfl, claim_C1_tick_on_gameOver_resets
    { initialState with gameOver := true, highscore := 7 } rfl⟩

/-! ## C2: the obstacle-strike predicate on overlapping spans -/

/-- C2 counterexample: a player and an obstacle on the same row whose
horizontal spans coincide exactly (hence overlap, one span containing the
other), yet `obstacleCollision` is false — refuting the claim that the
predicate is true whenever same-row spans overlap, including exact
coincidence. -/
theorem claim_C2_counterexample :
    let f : Frog := { id := "FROG", x := 100, y := 464,
                      img := "", width := 40, height := 42 }
    let o : Body := { id := "CAR1-1", x := 100, y := 464, img := "",
                      width := 40, height := 42, leftDirection := false }
    (o.x < f.x + f.width ∧ f.x < o.x + o.width)
      ∧ f.y = o.y
      ∧ obstacleCollision f o = false := by
  refine ⟨⟨by norm_num, by norm_num⟩, rfl, by norm_num [obstacleCollision]⟩

/-- C2 amended: for a player and an obstacle on the same row (and obstacle
of non-negative width), `obstacleCollision` is true exactly when their
horizontal spans overlap AND the obstacle's span does not weakly contain
the player's span; in particular it is false at the half-open boundary
(spans merely touching) and false when the obstacle's span contains the
player's (including exact coincidence). -/
theorem claim_C2_amended (f : Frog) (o : Body) (hy : f.y = o.y)
    (hw : 0 ≤ o.width) :
    obstacleCollision f o = true ↔
      ((o.x < f.x + f.width ∧ f.x < o.x + o.width)
        ∧ ¬(o.x ≤ f.x ∧ f.x + f.width ≤ o.x + o.width)) := by
  unfold obstacleCollision
  simp only [hy, decide_eq_true_eq, Bool.and_eq_true, Bool.or_eq_true,
    eq_self_iff_true, and_true]
  constructor
  · rintro (⟨h1, h2⟩ | ⟨h1, h2⟩)
    · exact ⟨⟨h1, by linarith⟩, by push_neg; intro hle; linarith⟩
    · exact ⟨⟨by linarith, h1⟩, by push_neg; intro hle; linarith⟩
  · rintro ⟨⟨hov1, hov2⟩, hnc⟩
    push_neg at hnc
    rcases lt_or_le f.x o.x with hx | hx
    · exact Or.inl ⟨hov1, hx⟩
    · exact Or.inr ⟨hov2, hnc hx⟩

/-- Witness for C2's amended theorem at a concrete partially-overlapping
pair. -/
theorem claim_C2_witness :
    let f : Frog := { id := "FROG", x := 100, y := 464,
                      img := "", width := 40, height := 42 }
    let o : Body := { id := "CAR1-1", x := 120, y := 464, img := "",
                      width := 40, height := 42, leftDirection := false }
    f.y = o.y ∧ (0 : ℚ) ≤ o.width ∧
      (obstacleCollision f o = true ↔
        ((o.x < f.x + f.width ∧ f.x < o.x + o.width)
          ∧ ¬(o.x ≤ f.x ∧ f.x + f.width ≤ o.x + o.width))) :=
  ⟨rfl, by norm_num,
    claim_C2_amended _ _ rfl (by norm_num)⟩

/-! ## C5: wrap keeps bodies on the canvas -/

/-- C5 counterexample: a rightward-flagged body given a leftward (negative)
velocity is moved fully past the left canvas edge without wrap-correction,
refuting the claim for every body and every velocity. -/
theorem claim_C5_counterexample :
    let b : Body := { id := "CAR2-1", x := 0, y := 405, img := "",
                      width := 40, height := 42, leftDirection := true }
    fullyOutside (wrap b true (-100)) := by
  intro b
  left
  show (wrap b true (-100)).x + (wrap b true (-100)).width ≤ 0
  norm_num [wrap, CANVAS_SIZE]

/-- C5 amended: for every body of positive width, if the velocity agrees in
sign with the direction flag and the body does not already lie fully past
the edge it is moving away from, `wrap` never produces a position entirely
outside the canvas (rightward overshoot reappears at `-width/2`, leftward
at `canvas - width/2`, and otherwise `x` becomes `x + velocity`). -/
theorem claim_C5_amended (b : Body) (left : Bool) (v : ℚ) (hw : 0 < b.width)
    (hvr : left = true → 0 ≤ v) (hvl : left = false → v ≤ 0)
    (hxr : left = true → 0 < b.x + b.width) (hxl : left = false → b.x < CANVAS_SIZE) :
    ¬ fullyOutside (wrap b left v) := by
  have hC : CANVAS_SIZE = 600 := rfl
  unfold fullyOutside
  cases left with
  | true =>
      have hv := hvr rfl
      have hx := hxr rfl
      have e1 : (wrap b true v).x
          = if CANVAS_SIZE ≤ b.x + v then -b.width / 2 else b.x + v := rfl
      have e2 : (wrap b true v).width = b.width := rfl
      rw [e1, e2, hC] at *
      push_neg
      split_ifs with h
      · exact ⟨by linarith, by linarith⟩
      · exact ⟨by linarith, by linarith⟩
  | false =>
      have hv := hvl rfl
      have hx := hxl rfl
      have e1 : (wrap b false v).x
          = if b.x + v ≤ -b.width then CANVAS_SIZE - b.width / 2 else b.x + v := rfl
      have e2 : (wrap b false v).width = b.width := rfl
      rw [e1, e2, hC] at *
      push_neg
      split_ifs with h
      · exact ⟨by linarith, by linarith⟩
      · exact ⟨by linarith, by linarith⟩

/-- Witness for C5's amended theorem: a rightward body at x = 10 moving at
velocity 5 stays on the canvas. -/
theorem claim_C5_witness :
    let b : Body := { id := "CAR2-1", x := 10, y := 405, img := "",
                      width := 40, height := 42, leftDirection := true }
    (0 : ℚ) < b.width ∧ (0 : ℚ) ≤ 5 ∧ 0 < b.x + b.width
      ∧ ¬ fullyOutside (wrap b true 5) := by
  refine ⟨by norm_num, by norm_num, by norm_num, ?_⟩
  exact claim_C5_amended _ true 5 (by norm_num) (fun _ => by norm_num)
    (fun h => by simp at h) (fun _ => by norm_num) (fun h => by simp at h)

/-! ## C6: Move updates the axes independently and changes nothing else -/

lemma illegalMove_startY (x : ℚ) :
    illegalMove x FROG_START_Y = (outLeftBound x || outRightBound x) := by
  unfold illegalMove
  rw [show outUpBound FROG_START_Y = false from by decide,
    show outDownBound FROG_START_Y = false from by
      norm_num [outDownBound, FROG_START_Y, FROG_STEP_Y]]
  simp

lemma illegalMove_startX (y : ℚ) :
    illegalMove FROG_START_X y = (outUpBound y || outDownBound y) := by
  unfold illegalMove
  rw [show outLeftBound FROG_START_X = false from by
      norm_num [outLeftBound, getXCoord, FROG_START_X, FROG_STEP_X],
    show outRightBound FROG_START_X = false from by
      norm_num [outRightBound, getXCoord, FROG_START_X, FROG_STEP_X]]
  simp

/-- C6: a Move(dx, dy) accepts or rejects each axis independently — the new
x is `x + dx` unless that lies outside the left/right bounds (then x is
unchanged), the new y is `y + dy` unless that lies outside the top/bottom
bounds (then y is unchanged) — and every other snapshot field (and every
other player field) is unchanged. -/
theorem claim_C6_move_axes_independent (s : State) (dx dy : ℚ) :
    (reduceState s (Event.Move dx dy)).frog.x
        = (if outLeftBound (s.frog.x + dx) || outRightBound (s.frog.x + dx)
           then s.frog.x else s.frog.x + dx)
      ∧ (reduceState s (Event.Move dx dy)).frog.y
        = (if outUpBound (s.frog.y + dy) || outDownBound (s.frog.y + dy)
           then s.frog.y else s.frog.y + dy)
      ∧ (reduceState s (Event.Move dx dy)).frog.id = s.frog.id
      ∧ (reduceState s (Event.Move dx dy)).frog.img = s.frog.img
      ∧ (reduceState s (Event.Move dx dy)).frog.width = s.frog.width
      ∧ (reduceState s (Event.Move dx dy)).frog.height = s.frog.height
      ∧ (reduceState s (Event.Move dx dy)).cars = s.cars
      ∧ (reduceState s (Event.Move dx dy)).logs = s.logs
      ∧ (reduceState s (Event.Move dx dy)).turtles = s.turtles
      ∧ (reduceState s (Event.Move dx dy)).filledSpaces = s.filledSpaces
      ∧ (reduceState s (Event.Move dx dy)).filledSpacesIndex = s.filledSpacesIndex
      ∧ (reduceState s (Event.Move dx dy)).score = s.score
      ∧ (reduceState s (Event.Move dx dy)).highscore = s.highscore
      ∧ (reduceState s (Event.Move dx dy)).level = s.level
      ∧ (reduceState s (Event.Move dx dy)).gameOver = s.gameOver := by
  refine ⟨?_, ?_, rfl, rfl, rfl, rfl, rfl, rfl, rfl, rfl, rfl, rfl, rfl, rfl, rfl⟩
  · have hx : (reduceState s (Event.Move dx dy)).frog.x
        = if illegalMove (s.frog.x + dx) FROG_START_Y then s.frog.x
          else s.frog.x + dx := rfl
    rw [hx, illegalMove_startY]
  · have hy : (reduceState s (Event.Move dx dy)).frog.y
        = if illegalMove FROG_START_X (s.frog.y + dy) then s.frog.y
          else s.frog.y + dy := rfl
    rw [hy, illegalMove_startX]

/-! ## C7: the high score never decreases -/

/-- C7: for every snapshot and every event, the reducer's output has a
highscore at least the input's — in particular through Restart and through
the reset performed by a Tick that observes game-over. -/
theorem claim_C7_highscore_monotone (s : State) (e : Event) :
    s.highscore ≤ (reduceState s e).highscore := by
  cases e with
  | Move dx dy => exact le_rfl
  | Restart v => exact le_rfl
  | Tick n =>
      show s.highscore ≤ (tick s).highscore
      by_cases hg : s.gameOver = true
      · have e1 : (tick s).highscore = s.highscore := by
          unfold tick; rw [if_pos hg]
        rw [e1]
      · by_cases h5 : s.filledSpacesIndex.length < 5
        · have e1 : (tick s).highscore
              = if s.highscore ≤ s.score then s.score else s.highscore := by
            unfold tick; rw [if_neg hg, if_pos h5]; rfl
          rw [e1]; split_ifs with h
          · exact h
          · exact le_rfl
        · have e1 : (tick s).highscore
              = if s.highscore ≤ s.score then s.score else s.highscore := by
            unfold tick; rw [if_neg hg, if_neg h5]; rfl
          rw [e1]; split_ifs with h
          · exact h
          · exact le_rfl

/-! ## Progress-tracker helper lemmas -/

lemma mem_foldl_nearest (fx : ℚ) (l : List Body) : ∀ (b : Body),
    l.foldl (fun acc object => if |object.x - fx| < |acc.x - fx| then object else acc) b
      ∈ b :: l := by
  induction l with
  | nil => intro b; exact List.mem_singleton.mpr rfl
  | cons o t ih =>
      intro b
      rw [List.foldl_cons]
      have h1 := ih (if |o.x - fx| < |b.x - fx| then o else b)
      rcases List.mem_cons.mp h1 with h | h
      · rw [h]
        split_ifs
        · exact List.mem_cons_of_mem _ (List.mem_cons_self _ _)
        · exact List.mem_cons_self _ _
      · exact List.mem_cons_of_mem _ (List.mem_cons_of_mem _ h)

lemma nearestObject_mem (s : State) (h : s.filledSpaces ≠ []) :
    nearestObject s ∈ s.filledSpaces := by
  rcases hs : s.filledSpaces with _ | ⟨b, rest⟩
  · exact absurd hs h
  · have h1 := mem_foldl_nearest s.frog.x rest b
    have e : nearestObject s
        = rest.foldl
            (fun acc object =>
              if |object.x - s.frog.x| < |acc.x - s.frog.x| then object else acc) b := by
      unfold nearestObject
      rw [hs]
    rw [e]
    exact h1

lemma slotIdx_mem (s : State) (h : s.filledSpaces = initialState.filledSpaces) :
    slotIdx s ∈ ([4, 3, 2, 1, 0] : List ℤ) := by
  have hne : s.filledSpaces ≠ [] := by rw [h]; decide
  have hm := nearestObject_mem s hne
  rw [h] at hm
  have key : ∀ b ∈ initialState.filledSpaces,
      charNum (charAt b.id 6) - 1 ∈ ([4, 3, 2, 1, 0] : List ℤ) := by decide
  exact key _ hm

lemma not_length_lt_of_all_mem (l : List ℤ)
    (h : ∀ i ∈ ([0, 1, 2, 3, 4] : List ℤ), i ∈ l) : ¬ l.length < 5 := by
  have hsub : ([0, 1, 2, 3, 4] : List ℤ).toFinset ⊆ l.toFinset := by
    intro x hx
    rw [List.mem_toFinset] at hx ⊢
    exact h x hx
  have h1 := Finset.card_le_card hsub
  have h2 : ([0, 1, 2, 3, 4] : List ℤ).toFinset.card = 5 := by decide
  have h3 := l.toFinset_card_le
  omega

lemma updateScore_eq_of_mem (s : State)
    (hmem : slotIdx s ∈ s.filledSpacesIndex) : updateScore s = s.score := by
  have hc : checkFilled s = true := by
    unfold checkFilled
    simpa using hmem
  unfold updateScore
  rw [hc]
  simp

/-! ## C8: the fill/score update is idempotent on already-filled slots -/

/-- C8: when the player is in the target row and the nearest slot's index is
already in the filled-index set, the fill update returns the set unchanged
(no duplicate) and the score update returns the score unchanged. -/
theorem claim_C8_fill_idempotent (s : State) (hT : inTarget s = true)
    (hmem : slotIdx s ∈ s.filledSpacesIndex) :
    updateFilledInd s = s.filledSpacesIndex ∧ updateScore s = s.score := by
  constructor
  · unfold updateFilledInd
    rw [if_pos hT]
    show s.filledSpacesIndex
        ++ (if slotIdx s ∈ s.filledSpacesIndex then [] else [slotIdx s])
      = s.filledSpacesIndex
    rw [if_pos hmem, List.append_nil]
  · exact updateScore_eq_of_mem s hmem

/-- A concrete snapshot for C8's witness: the frog sits in the goal row over
slot 3 (index 2), which is already filled. -/
def c8State : State :=
  { initialState with
    frog := { initialState.frog with y := 51 }
    filledSpacesIndex := [2] }

/-- Witness for C8 at `c8State`. -/
theorem claim_C8_witness :
    inTarget c8State = true ∧ slotIdx c8State ∈ c8State.filledSpacesIndex
      ∧ updateFilledInd c8State = c8State.filledSpacesIndex
      ∧ updateScore c8State = c8State.score := by
  have hT : inTarget c8State = true := by
    norm_num [inTarget, c8State, initialState, onBushes, getXCoord, FROG_START_X,
      FROG_START_Y, FROG_STEP_X, ROW_7, FROG_WIDTH, createFrog]
  have hidx : slotIdx c8State = 2 := by
    norm_num [slotIdx, nearestObject, c8State, initialState, createFilledSpaces,
      createFrog, charNum, charAt, FROG_START_X, FROG_START_Y, FROG_STEP_X,
      BUSH_WIDTH, ROW_7, FROG_WIDTH, FROG_HEIGHT]
    decide
  have hmem : slotIdx c8State ∈ c8State.filledSpacesIndex := by
    rw [hidx]
    decide
  exact ⟨hT, hmem, (claim_C8_fill_idempotent c8State hT hmem).1,
    (claim_C8_fill_idempotent c8State hT hmem).2⟩

/-! ## C3: level rollover -/

/-- C3: a non-game-over snapshot (with the factory-built slot markers) whose
filled-index set contains all five slot indices rolls over on one Tick:
level increments by exactly 1, the filled-index set becomes empty, the score
is unchanged, and the high score is not reset by the rollover — it undergoes
only the ordinary per-tick max update (in particular it never decreases). -/
theorem claim_C3_level_rollover (s : State) (h1 : s.gameOver = false)
    (h2 : s.filledSpaces = initialState.filledSpaces)
    (h3 : ∀ i ∈ ([0, 1, 2, 3, 4] : List ℤ), i ∈ s.filledSpacesIndex) :
    (tick s).level = s.level + 1
      ∧ (tick s).filledSpacesIndex = []
      ∧ (tick s).score = s.score
      ∧ s.highscore ≤ (tick s).highscore
      ∧ (tick s).highscore
        = (if s.highscore ≤ s.score then s.score else s.highscore) := by
  have hg : ¬ s.gameOver = true := by rw [h1]; exact Bool.false_ne_true
  have h5 : ¬ s.filledSpacesIndex.length < 5 := not_length_lt_of_all_mem _ h3
  have hmem : slotIdx s ∈ s.filledSpacesIndex := by
    apply h3
    have h4 := slotIdx_mem s h2
    simp only [List.mem_cons, List.not_mem_nil, or_false] at h4 ⊢
    tauto
  have elevel : (tick s).level = s.level + 1 := by
    unfold tick; rw [if_neg hg, if_neg h5]; rfl
  have efilled : (tick s).filledSpacesIndex = [] := by
    unfold tick; rw [if_neg hg, if_neg h5]; rfl
  have escore : (tick s).score = updateScore s := by
    unfold tick; rw [if_neg hg, if_neg h5]; rfl
  have ehs : (tick s).highscore
      = (if s.highscore ≤ s.score then s.score else s.highscore) := by
    unfold tick; rw [if_neg hg, if_neg h5]; rfl
  refine ⟨elevel, efilled, ?_, ?_, ehs⟩
  · rw [escore]
    exact updateScore_eq_of_mem s hmem
  · rw [ehs]
    split_ifs with h
    · exact h
    · exact le_rfl

/-- A concrete snapshot for C3's witness: all five slots filled. -/
def c3State : State := { initialState with filledSpacesIndex := [0, 1, 2, 3, 4] }

/-- Witness for C3 at `c3State`. -/
theorem claim_C3_witness :
    c3State.gameOver = false
      ∧ c3State.filledSpaces = initialState.filledSpaces
      ∧ (∀ i ∈ ([0, 1, 2, 3, 4] : List ℤ), i ∈ c3State.filledSpacesIndex)
      ∧ (tick c3State).level = c3State.level + 1
      ∧ (tick c3State).filledSpacesIndex = []
      ∧ (tick c3State).score = c3State.score :=
  ⟨rfl, rfl, by decide,
    (claim_C3_level_rollover c3State rfl rfl (by decide)).1,
    (claim_C3_level_rollover c3State rfl rfl (by decide)).2.1,
    (claim_C3_level_rollover c3State rfl rfl (by decide)).2.2.1⟩

/-! ## C4: what a rollover tick does to the entity collections -/

/-- A concrete snapshot for C4: all five slots filled, otherwise initial. -/
def c4State : State := { initialState with filledSpacesIndex := [0, 1, 2, 3, 4] }

/-- C4 counterexample: on a rollover tick (non-game-over, filled set full)
the obstacle collection is NOT reconstructed to its initial layout — the
first car has moved (x becomes 590, not its initial 600) — refuting the
claim that a rollover tick fully rebuilds the collections. -/
theorem claim_C4_counterexample :
    c4State.gameOver = false
      ∧ ¬ c4State.filledSpacesIndex.length < 5
      ∧ (tick c4State).cars ≠ initialState.cars := by
  refine ⟨rfl, by decide, ?_⟩
  intro hcon
  have e1 : (tick c4State).cars = c4State.cars.map (moveCar (speedMult c4State)) := by
    unfold tick
    rw [if_neg (by decide), if_neg (by decide)]
    rfl
  rw [e1] at hcon
  have h2 := congrArg (fun l : List Body => (l.getD 0 defaultBody).x) hcon
  have e2 : (initialState.cars.getD 0 defaultBody).x = ((3 : ℕ) : ℚ) * OBJECT_WIDTH := rfl
  have e3 : ((c4State.cars.map (moveCar (speedMult c4State))).getD 0 defaultBody).x
      = if ((3 : ℕ) : ℚ) * OBJECT_WIDTH + (CAR1_SPEED - speedMult c4State)
            ≤ -CAR_WIDTH
        then CANVAS_SIZE - CAR_WIDTH / 2
        else ((3 : ℕ) : ℚ) * OBJECT_WIDTH + (CAR1_SPEED - speedMult c4State) := rfl
  simp only [] at h2
  rw [e2, e3] at h2
  norm_num [OBJECT_WIDTH, CAR1_SPEED, CAR_WIDTH, CANVAS_SIZE, speedMult,
    SPEED_INCREASE, c4State, initialState] at h2

/-- C4 amended: on a rollover tick the obstacle, platform and slot
collections are NOT rebuilt; obstacles/platforms are transformed
element-wise by the motion engine (exactly as on a normal tick) and the
slot markers are left untouched.  Full reconstruction happens only on
Restart and on a game-over tick. -/
theorem claim_C4_amended (s : State) (h1 : s.gameOver = false)
    (h5 : ¬ s.filledSpacesIndex.length < 5) :
    (tick s).cars = s.cars.map (moveCar (speedMult s))
      ∧ (tick s).logs = s.logs.map (moveLog (speedMult s))
      ∧ (tick s).turtles = s.turtles.map (moveTurtle (speedMult s))
      ∧ (tick s).filledSpaces = s.filledSpaces := by
  have hg : ¬ s.gameOver = true := by rw [h1]; exact Bool.false_ne_true
  refine ⟨?_, ?_, ?_, ?_⟩ <;> (unfold tick; rw [if_neg hg, if_neg h5]; rfl)

/-- Witness for C4's amended theorem at `c4State`. -/
theorem claim_C4_witness :
    c4State.gameOver = false
      ∧ ¬ c4State.filledSpacesIndex.length < 5
      ∧ (tick c4State).cars = c4State.cars.map (moveCar (speedMult c4State))
      ∧ (tick c4State).filledSpaces = c4State.filledSpaces :=
  ⟨rfl, by decide, (claim_C4_amended c4State rfl (by decide)).1,
    (claim_C4_amended c4State rfl (by decide)).2.2.2⟩

/-! ## Reachability -/

/-- Snapshots reachable from the initial snapshot by any sequence of
reducer events (arbitrary Move payloads included). -/
inductive Reachable : State → Prop
  | init : Reachable initialState
  | step (s : State) (e : Event) : Reachable s → Reachable (reduceState s e)

/-- Snapshots reachable from the initial snapshot by the events the program
actually constructs: the four key-generated Move steps
(±FROG_STEP_X on x, ±FROG_STEP_Y on y), Restart, and Tick. -/
inductive ReachableKeys : State → Prop
  | init : ReachableKeys initialState
  | moveLeft (s : State) :
      ReachableKeys s → ReachableKeys (reduceState s (Event.Move (-FROG_STEP_X) 0))
  | moveRight (s : State) :
      ReachableKeys s → ReachableKeys (reduceState s (Event.Move FROG_STEP_X 0))
  | moveUp (s : State) :
      ReachableKeys s → ReachableKeys (reduceState s (Event.Move 0 (-FROG_STEP_Y)))
  | moveDown (s : State) :
      ReachableKeys s → ReachableKeys (reduceState s (Event.Move 0 FROG_STEP_Y))
  | restartKey (s : State) :
      ReachableKeys s → ReachableKeys (reduceState s (Event.Restart true))
  | tickEvent (s : State) (n : ℕ) :
      ReachableKeys s → ReachableKeys (reduceState s (Event.Tick n))

/-! ## C9: the filled-index set stays inside {0..4} without duplicates -/

/-- The inductive invariant for C9: the slot markers are the factory-built
ones (nothing in the reducer ever produces anything else), and the filled
indices are a duplicate-free subset of {0..4}. -/
def SlotInvariant (s : State) : Prop :=
  s.filledSpaces = initialState.filledSpaces
    ∧ (∀ i ∈ s.filledSpacesIndex, i ∈ ([0, 1, 2, 3, 4] : List ℤ))
    ∧ s.filledSpacesIndex.Nodup

lemma slotInvariant_initial : SlotInvariant initialState :=
  ⟨rfl, fun i hi => absurd hi (List.not_mem_nil i), List.nodup_nil⟩

lemma updateFilledInd_eq (s : State) :
    updateFilledInd s
      = if inTarget s then
          (if slotIdx s ∈ s.filledSpacesIndex then s.filledSpacesIndex
           else s.filledSpacesIndex ++ [slotIdx s])
        else s.filledSpacesIndex := by
  unfold updateFilledInd
  by_cases hT : inTarget s = true
  · rw [if_pos hT, if_pos hT]
    show s.filledSpacesIndex
        ++ (if slotIdx s ∈ s.filledSpacesIndex then [] else [slotIdx s]) = _
    by_cases hmem : slotIdx s ∈ s.filledSpacesIndex
    · rw [if_pos hmem, if_pos hmem, List.append_nil]
    · rw [if_neg hmem, if_neg hmem]
  · rw [if_neg hT, if_neg hT]

lemma updateFilledInd_invariant (s : State)
    (hsp : s.filledSpaces = initialState.filledSpaces)
    (hsub : ∀ i ∈ s.filledSpacesIndex, i ∈ ([0, 1, 2, 3, 4] : List ℤ))
    (hnd : s.filledSpacesIndex.Nodup) :
    (∀ i ∈ updateFilledInd s, i ∈ ([0, 1, 2, 3, 4] : List ℤ))
      ∧ (updateFilledInd s).Nodup := by
  rw [updateFilledInd_eq]
  by_cases hT : inTarget s = true
  · rw [if_pos hT]
    by_cases hmem : slotIdx s ∈ s.filledSpacesIndex
    · rw [if_pos hmem]
      exact ⟨hsub, hnd⟩
    · rw [if_neg hmem]
      constructor
      · intro i hi
        rcases List.mem_append.mp hi with h | h
        · exact hsub i h
        · have heq : i = slotIdx s := List.mem_singleton.mp h
          subst heq
          have h4 := slotIdx_mem s hsp
          simp only [List.mem_cons, List.not_mem_nil, or_false] at h4 ⊢
          tauto
      · rw [List.nodup_append]
        refine ⟨hnd, List.nodup_singleton _, ?_⟩
        intro x hx hx2
        have heq : x = slotIdx s := List.mem_singleton.mp hx2
        subst heq
        exact hmem hx
  · rw [if_neg hT]
    exact ⟨hsub, hnd⟩

lemma slotInvariant_step (s : State) (e : Event) (h : SlotInvariant s) :
    SlotInvariant (reduceState s e) := by
  obtain ⟨hsp, hsub, hnd⟩ := h
  cases e with
  | Move dx dy => exact ⟨hsp, hsub, hnd⟩
  | Restart v =>
      exact ⟨rfl, fun i hi => absurd hi (List.not_mem_nil i), List.nodup_nil⟩
  | Tick n =>
      show SlotInvariant (tick s)
      by_cases hg : s.gameOver = true
      · have e1 : tick s
            = { s with
                frog := createFrog "FROG" "../frogger/assets/frog.png"
                  (FROG_START_X, FROG_START_Y) (FROG_WIDTH, FROG_HEIGHT)
                cars := createCarRow 1 CAR_COUNT [] ++ createCarRow 2 CAR_COUNT []
                  ++ createCarRow 3 CAR_COUNT []
                logs := createLogRow 1 LOG_COUNT [] ++ createLogRow 2 LOG_COUNT []
                turtles := createTurtleRow TURTLE_COUNT []
                filledSpaces := createFilledSpaces TARGET_COUNT []
                filledSpacesIndex := []
                score := 0
                level := 0
                gameOver := false } := by
          unfold tick; rw [if_pos hg]
        rw [e1]
        exact ⟨rfl, fun i hi => absurd hi (List.not_mem_nil i), List.nodup_nil⟩
      · by_cases h5 : s.filledSpacesIndex.length < 5
        · have e1 : (tick s).filledSpaces = s.filledSpaces := by
            unfold tick; rw [if_neg hg, if_pos h5]; rfl
          have e2 : (tick s).filledSpacesIndex = updateFilledInd s := by
            unfold tick; rw [if_neg hg, if_pos h5]; rfl
          have h6 := updateFilledInd_invariant s hsp hsub hnd
          exact ⟨by rw [e1]; exact hsp, by rw [e2]; exact h6.1, by rw [e2]; exact h6.2⟩
        · have e1 : (tick s).filledSpaces = s.filledSpaces := by
            unfold tick; rw [if_neg hg, if_neg h5]; rfl
          have e2 : (tick s).filledSpacesIndex = [] := by
            unfold tick; rw [if_neg hg, if_neg h5]; rfl
          exact ⟨by rw [e1]; exact hsp,
            by rw [e2]; exact fun i hi => absurd hi (List.not_mem_nil i),
            by rw [e2]; exact List.nodup_nil⟩

/-- C9: in every snapshot reachable from the initial snapshot by any
sequence of Move, Tick and Restart events, the filled-index collection
contains only indices from {0,1,2,3,4} and has no duplicates. -/
theorem claim_C9_filled_indices_invariant (s : State) (h : Reachable s) :
    (∀ i ∈ s.filledSpacesIndex, i ∈ ([0, 1, 2, 3, 4] : List ℤ))
      ∧ s.filledSpacesIndex.Nodup := by
  have hinv : SlotInvariant s := by
    induction h with
    | init => exact slotInvariant_initial
    | step s e hs ih => exact slotInvariant_step s e ih
  exact ⟨hinv.2.1, hinv.2.2⟩

/-- Witness for C9: the snapshot after one Tick from the initial snapshot. -/
theorem claim_C9_witness :
    Reachable (reduceState initialState (Event.Tick 0))
      ∧ ((∀ i ∈ (reduceState initialState (Event.Tick 0)).filledSpacesIndex,
            i ∈ ([0, 1, 2, 3, 4] : List ℤ))
        ∧ (reduceState initialState (Event.Tick 0)).filledSpacesIndex.Nodup) :=
  ⟨Reachable.step initialState (Event.Tick 0) Reachable.init,
    claim_C9_filled_indices_invariant _
      (Reachable.step initialState (Event.Tick 0) Reachable.init)⟩

/-! ## C10: the player's y-coordinate stays on the nine discrete rows -/

lemma move_frog_y_eq (s : State) (dx dy : ℚ) :
    (reduceState s (Event.Move dx dy)).frog.y
      = if illegalMove FROG_START_X (s.frog.y + dy) then s.frog.y
        else s.frog.y + dy := rfl

lemma moveFrog_y (sm : ℚ) (s : State) :
    (moveFrog sm s).y = FROG_START_Y ∨ (moveFrog sm s).y = s.frog.y := by
  unfold moveFrog
  split_ifs
  · exact Or.inl rfl
  · exact Or.inr rfl
  · exact Or.inr rfl
  · exact Or.inr rfl
  · exact Or.inr rfl

lemma tick_frog_y (s : State) :
    (tick s).frog.y = FROG_START_Y ∨ (tick s).frog.y = s.frog.y := by
  by_cases hg : s.gameOver = true
  · left
    unfold tick
    rw [if_pos hg]
    rfl
  · by_cases h5 : s.filledSpacesIndex.length < 5
    · have e1 : (tick s).frog = moveFrog (speedMult s) s := by
        unfold tick; rw [if_neg hg, if_pos h5]; rfl
      rw [e1]
      exact moveFrog_y _ s
    · have e1 : (tick s).frog = moveFrog (speedMult s) s := by
        unfold tick; rw [if_neg hg, if_neg h5]; rfl
      rw [e1]
      exact moveFrog_y _ s

/-- C10: in every snapshot reachable by the program's key-generated events
(Move by ±FROG_STEP_X / ±FROG_STEP_Y, Tick, Restart), the player's
y-coordinate is one of the nine discrete row values 523 - 59k for
k = 0..8: moves change y only in whole 59-unit steps inside the bounds,
platform riding changes only x, and every reset or target-entry snap
returns y to 523. -/
theorem claim_C10_frog_row_invariant (s : State) (h : ReachableKeys s) :
    s.frog.y ∈ ([523, 464, 405, 346, 287, 228, 169, 110, 51] : List ℚ) := by
  induction h with
  | init =>
      rw [show initialState.frog.y = (523 : ℚ) from rfl]
      norm_num
  | moveLeft s hs ih =>
      rw [move_frog_y_eq, add_zero]
      split_ifs <;> exact ih
  | moveRight s hs ih =>
      rw [move_frog_y_eq, add_zero]
      split_ifs <;> exact ih
  | moveUp s hs ih =>
      rw [move_frog_y_eq]
      simp only [List.mem_cons, List.not_mem_nil, or_false] at ih
      rcases ih with h | h | h | h | h | h | h | h | h <;> rw [h] <;>
        norm_num [illegalMove, outLeftBound, outRightBound, outUpBound,
          outDownBound, getXCoord, FROG_START_X, FROG_START_Y, FROG_STEP_X,
          FROG_STEP_Y, ROW_7]
  | moveDown s hs ih =>
      rw [move_frog_y_eq]
      simp only [List.mem_cons, List.not_mem_nil, or_false] at ih
      rcases ih with h | h | h | h | h | h | h | h | h <;> rw [h] <;>
        norm_num [illegalMove, outLeftBound, outRightBound, outUpBound,
          outDownBound, getXCoord, FROG_START_X, FROG_START_Y, FROG_STEP_X,
          FROG_STEP_Y, ROW_7]
  | restartKey s hs ih =>
      rw [show (reduceState s (Event.Restart true)).frog.y = FROG_START_Y from rfl,
        show FROG_START_Y = (523 : ℚ) from rfl]
      norm_num
  | tickEvent s n hs ih =>
      show (tick s).frog.y ∈ _
      rcases tick_frog_y s with h | h <;> rw [h]
      · rw [show FROG_START_Y = (523 : ℚ) from rfl]
        norm_num
      · exact ih

/-- Witness for C10 at the initial snapshot. -/
theorem claim_C10_witness :
    ReachableKeys initialState
      ∧ initialState.frog.y
        ∈ ([523, 464, 405, 346, 287, 228, 169, 110, 51] : List ℚ) :=
  ⟨ReachableKeys.init,
    claim_C10_frog_row_invariant initialState ReachableKeys.init⟩

end Frogger
